import Mathlib

/-!
Verification of the request-admission and session-state layer of the
WhatsApp commerce bot in src/main.py: the TTL cache, the dedup tracker,
the per-sender rate limiter, the order ledger (creation and payment
update) and the webhook admission pipeline.

Timestamps (Python float values of datetime.timestamp()) are modelled as
integers (seconds); the code only adds ttl offsets to them and compares
them with <, so integer time preserves every property stated here.  The
fixed-window rate limiter works on whole seconds of a non-negative wall
clock, so its times are naturals.
-/

namespace CPC

/-- Timestamps in seconds. -/
abbrev Time := Int

/-! ### TTL cache (class Cache, src/main.py lines 130-160)

The dictionary self._cache maps a key to a pair (value, expires_at); it
is modelled as a function from keys to an optional pair. -/

abbrev CacheStore (α : Type) : Type := String → Option (α × Time)

/-- Cache store with no entries. -/
def CacheStore.empty {α : Type} : CacheStore α := fun _ => none

/-- Cache.get: return the value if the current time is strictly before
the stored expiry, otherwise delete the entry and return None.  The
returned pair is (result, cache state after the call). -/
def CacheStore.get {α : Type} (c : CacheStore α) (key : String) (now : Time) :
    Option α × CacheStore α :=
  match c key with
  | some (value, expires_at) =>
      if now < expires_at then (some value, c)
      else (none, fun k => if k = key then none else c k)
  | none => (none, c)

/-- Cache.set: store the value with absolute expiry now + ttl_seconds. -/
def CacheStore.set {α : Type} (c : CacheStore α) (key : String) (value : α)
    (ttl_seconds : Time) (now : Time) : CacheStore α :=
  fun k => if k = key then some (value, now + ttl_seconds) else c k

/-- Cache.delete: remove a key unconditionally. -/
def CacheStore.delete {α : Type} (c : CacheStore α) (key : String) : CacheStore α :=
  fun k => if k = key then none else c k

/-- Concrete cache key used by witnesses. -/
def kDemo : String := "k"

/-- C5: after set(k, v, T) at time now, get(k) at a time strictly before
now + T returns v and leaves the store unchanged; at or after now + T it
returns absent and the entry is removed from the store. -/
theorem c5_cache_ttl {α : Type} (c : CacheStore α) (key : String) (value : α)
    (T now t : Time) :
    (t < now + T →
      CacheStore.get (CacheStore.set c key value T now) key t =
        (some value, CacheStore.set c key value T now)) ∧
    (now + T ≤ t →
      (CacheStore.get (CacheStore.set c key value T now) key t).1 = none ∧
      (CacheStore.get (CacheStore.set c key value T now) key t).2 key = none) := by
  constructor
  · intro hlt
    simp [CacheStore.get, CacheStore.set, hlt]
  · intro hge
    have hnot : ¬ t < now + T := not_lt.mpr hge
    constructor
    · simp [CacheStore.get, CacheStore.set, hnot]
    · simp [CacheStore.get, CacheStore.set, hnot]

/-- Witness for c5_cache_ttl at key "k", value true, ttl 300, set at time
100: a read at 399 returns the value, a read at 400 finds it absent and
evicted. -/
theorem c5_cache_ttl_witness :
    (CacheStore.get (CacheStore.set (CacheStore.empty (α := Bool)) kDemo true 300 100) kDemo 399 =
        (some true, CacheStore.set (CacheStore.empty (α := Bool)) kDemo true 300 100)) ∧
    ((CacheStore.get (CacheStore.set (CacheStore.empty (α := Bool)) kDemo true 300 100) kDemo 400).1 = none ∧
      (CacheStore.get (CacheStore.set (CacheStore.empty (α := Bool)) kDemo true 300 100) kDemo 400).2 kDemo = none) :=
  ⟨(c5_cache_ttl CacheStore.empty kDemo true 300 100 399).1 (by decide),
   (c5_cache_ttl CacheStore.empty kDemo true 300 100 400).2 (by decide)⟩

/-! ### Order ledger data model (orders table rows, src/main.py lines 296-464)

An order row carries the fields written by the two creation paths and by
the payment update.  Fields absent from a freshly inserted dict (payment
method and status, confirmation timestamp) are options.  The primary key
assigned by the persistent store is modelled as the row index at insert
time. -/

structure ProcessedItem where
  product_retailer_id : String
  name : String
  quantity : Int
  item_price : Int
  currency : String
  item_total : Int
deriving DecidableEq, Repr

structure Order where
  id : Nat
  wa_id : String
  customer_phone : String
  item_id : String
  item_name : String
  items : List ProcessedItem
  item_price : Option Int
  subtotal : Int
  tax_amount : Int
  total_amount : Int
  quantity : Int
  status : String
  order_source : String
  meta_order_id : Option String
  payment_method : Option String
  payment_status : Option String
  payment_confirmed_at : Option Time
  created_at : Time
deriving DecidableEq, Repr

/-- Values stored in the shared in-memory cache (processed flags, blocked
flags, single orders, order-history listings). -/
inductive CVal where
  | flag (b : Bool)
  | order (o : Order)
  | orderList (l : List Order)
deriving DecidableEq, Repr

/-- Python truthiness of a cached value, as tested by
if cache.get(cache_key): in already_processed. -/
def CVal.truthy : CVal → Bool
  | CVal.flag b => b
  | CVal.order _ => true
  | CVal.orderList l => !l.isEmpty

/-- Process-wide state: the orders table, the processed_messages table
(its message_id column) and the shared in-memory cache. -/
structure DBState where
  orders : List Order
  processed : List String
  cache : CacheStore CVal

def DBState.empty : DBState := { orders := [], processed := [], cache := CacheStore.empty }

/-! ### Dedup tracker (src/main.py lines 257-294) -/

/-- Database.already_processed: consult the in-memory cache entry
processed:message_id first; on a miss consult the processed_messages
table, back-filling the cache (ttl 3600) on a positive hit. -/
def Database.already_processed (s : DBState) (message_id : String) (now : Time) :
    Bool × DBState :=
  let cache_key := "processed:" ++ message_id
  let r := CacheStore.get s.cache cache_key now
  if (r.1.map CVal.truthy).getD false then (true, { s with cache := r.2 })
  else
    let is_processed := s.processed.contains message_id
    let c3 := if is_processed then CacheStore.set r.2 cache_key (CVal.flag true) 3600 now
              else r.2
    (is_processed, { s with cache := c3 })

/-- Database.mark_processed: immediately write the cache entry with a
3600 second ttl, then append a durable record from a detached background
task.  The fire-and-forget insert is modelled by insert_ok: true if the
background insert has completed successfully by the time of the next
observation, false if it failed or was lost. -/
def Database.mark_processed (s : DBState) (message_id wa_id message_type : String)
    (now : Time) (insert_ok : Bool) : DBState :=
  { s with
    cache := CacheStore.set s.cache ("processed:" ++ message_id) (CVal.flag true) 3600 now,
    processed := if insert_ok then message_id :: s.processed else s.processed }

/-- Concrete message id, sender and message type used in examples. -/
def midDemo : String := "wamid.demo"

def waDemo : String := "923001234567"

def mtypeDemo : String := "text"

/-- C3 counterexample: mark_processed returns at time 0 but the detached
durable insert fails; the 3600 second cache entry has expired by time
3600, so a later already_processed call for the same message id in the
same process returns false, contradicting the claim that it returns true
regardless of elapsed time and of the durable insert. -/
theorem c3_counterexample :
    (Database.already_processed
      (Database.mark_processed DBState.empty midDemo waDemo mtypeDemo 0 false)
      midDemo 3600).1 = false := by decide

/-- C3 amended: after mark_processed(m) returns at time tm, a subsequent
already_processed(m) call in the same process returns true at every time
strictly within 3600 seconds of the mark regardless of the durable
insert, and at every time whatsoever when the background durable insert
succeeded. -/
theorem c3_dedup_amended (s : DBState) (m wa mt : String) (tm tq : Time)
    (insert_ok : Bool) (h : tq < tm + 3600 ∨ insert_ok = true) :
    (Database.already_processed (Database.mark_processed s m wa mt tm insert_ok) m tq).1 = true := by
  rcases h with h | h
  · simp [Database.already_processed, Database.mark_processed, CacheStore.get,
      CacheStore.set, CVal.truthy, h]
  · subst h
    by_cases h2 : tq < tm + 3600
    · simp [Database.already_processed, Database.mark_processed, CacheStore.get,
        CacheStore.set, CVal.truthy, h2]
    · simp [Database.already_processed, Database.mark_processed, CacheStore.get,
        CacheStore.set, CVal.truthy, h2]

/-- Witness for c3_dedup_amended: with a successful durable insert the
message is still reported processed 5000 seconds later. -/
theorem c3_dedup_amended_witness :
    (Database.already_processed
      (Database.mark_processed DBState.empty midDemo waDemo mtypeDemo 0 true)
      midDemo 5000).1 = true :=
  c3_dedup_amended DBState.empty midDemo waDemo mtypeDemo 0 5000 true (Or.inr rfl)

/-! ### Decimal rendering of naturals

Python renders numbers into f-strings in decimal.  The rendering is
modelled by natRepr on Nat.digits (most significant digit first); its
injectivity backs claim C9. -/

def natRepr (n : Nat) : String :=
  if n = 0 then "0" else ((Nat.digits 10 n).reverse.map Nat.digitChar).asString

/-! ### Order ledger operations (src/main.py lines 296-443) -/

/-- One element of order_data["product_items"] of a catalogue order. -/
structure ProductItem where
  product_retailer_id : String
  name : String
  item_price : Int
  quantity : Int
  currency : String
deriving DecidableEq, Repr

/-- The order_data dict of a catalogue order. -/
structure OrderData where
  product_items : List ProductItem
  order_id : Option String
deriving DecidableEq, Repr

/-- Python int() truncation toward zero on an exact rational. -/
def pyInt (q : ℚ) : Int := if 0 ≤ q then ⌊q⌋ else ⌈q⌉

/-- The hard-coded tax rate of create_order_from_catalogue (line 327). -/
def TAX_RATE : ℚ := 0

/-- Python x or 0 on an optional integer: None and 0 are falsy. -/
def pyOrZero (v : Option Int) : Int :=
  match v with
  | none => 0
  | some x => if x = 0 then 0 else x

/-- One processed line item (loop body of lines 311-324). -/
def processItem (it : ProductItem) : ProcessedItem :=
  { product_retailer_id := it.product_retailer_id
    name := it.name
    quantity := it.quantity
    item_price := it.item_price
    currency := it.currency
    item_total := it.item_price * it.quantity }

/-- The accumulation loop of create_order_from_catalogue (lines 308-324):
running subtotal and processed item list.  The Python loop accumulates
left to right; the recursion below yields the same list and, integer
addition being commutative and associative, the same subtotal. -/
def accumItems : List ProductItem → Int × List ProcessedItem
  | [] => (0, [])
  | it :: rest =>
      let p := processItem it
      let r := accumItems rest
      (p.item_total + r.1, p :: r.2)

/-- item_display (line 331). -/
def itemDisplay (n : Nat) : String :=
  if n = 0 then "Catalogue order" else natRepr n ++ " item(s) from catalogue"

/-- Database.create_order_from_catalogue (lines 296-360): compute line
totals and subtotal, apply the hard-coded tax rate, insert the order
row, then delete the order-history cache key and cache the new row under
the pending-order key for 1800 seconds.  The get_or_create_user call
only resolves the owning user id, which plays no role in any claim, so
it is not modelled. -/
def Database.create_order_from_catalogue (s : DBState) (wa_id customer_phone : String)
    (order_data : OrderData) (now : Time) : Order × DBState :=
  let items := order_data.product_items
  let acc := accumItems items
  let subtotal := acc.1
  let tax_amount := pyInt ((subtotal : ℚ) * TAX_RATE)
  let total_amount := subtotal + tax_amount
  let order : Order :=
    { id := s.orders.length
      wa_id := wa_id
      customer_phone := customer_phone
      item_id := "CAT_ORDER"
      item_name := itemDisplay items.length
      items := acc.2
      item_price := none
      subtotal := subtotal
      tax_amount := tax_amount
      total_amount := total_amount
      quantity := if items.isEmpty then 1 else (items.length : Int)
      status := "pending_payment"
      order_source := "meta_catalogue"
      meta_order_id := order_data.order_id
      payment_method := none
      payment_status := none
      payment_confirmed_at := none
      created_at := now }
  let c1 := CacheStore.delete s.cache ("order_history:" ++ wa_id)
  let c2 := CacheStore.set c1 ("pending_order:" ++ wa_id) (CVal.order order) 1800 now
  (order, { orders := s.orders ++ [order], processed := s.processed, cache := c2 })

/-- Database.create_order (lines 409-443), the single-item legacy path. -/
def Database.create_order (s : DBState) (wa_id customer_phone item_id item_name : String)
    (item_price : Option Int) (now : Time) : Order × DBState :=
  let subtotal := pyOrZero item_price
  let tax_amount : Int := 0
  let total_amount := subtotal + tax_amount
  let order : Order :=
    { id := s.orders.length
      wa_id := wa_id
      customer_phone := customer_phone
      item_id := item_id
      item_name := item_name
      items := []
      item_price := item_price
      subtotal := subtotal
      tax_amount := tax_amount
      total_amount := total_amount
      quantity := 1
      status := "pending_payment"
      order_source := "bot_menu"
      meta_order_id := none
      payment_method := none
      payment_status := none
      payment_confirmed_at := none
      created_at := now }
  let c1 := CacheStore.delete s.cache ("order_history:" ++ wa_id)
  let c2 := CacheStore.set c1 ("pending_order:" ++ wa_id) (CVal.order order) 1800 now
  (order, { orders := s.orders ++ [order], processed := s.processed, cache := c2 })

/-- The update dict of Database.update_order_payment (lines 392-397)
applied to an order row. -/
def applyPaymentUpdate (o : Order) (payment_method payment_status : String)
    (now : Time) : Order :=
  { o with
    payment_method := some payment_method
    payment_status := some payment_status
    status := if payment_status = "confirmed" then "placed" else "pending_payment"
    payment_confirmed_at := if payment_status = "confirmed" then some now else none }

/-- Database.update_order_payment (lines 387-407): update every orders
row whose primary key matches; when a row was updated, delete the
pending-order and order-history cache keys of its sender; when none
was, return the empty result and touch nothing else. -/
def Database.update_order_payment (s : DBState) (order_id : Nat)
    (payment_method payment_status : String) (now : Time) : Option Order × DBState :=
  let orders2 := s.orders.map fun o =>
    if o.id = order_id then applyPaymentUpdate o payment_method payment_status now else o
  match (s.orders.filter fun o => o.id == order_id).map
      (fun o => applyPaymentUpdate o payment_method payment_status now) with
  | [] => (none, { s with orders := orders2 })
  | o :: _ =>
      let c1 := CacheStore.delete s.cache ("pending_order:" ++ o.wa_id)
      let c2 := CacheStore.delete c1 ("order_history:" ++ o.wa_id)
      (some o, { orders := orders2, processed := s.processed, cache := c2 })

/-- The processed item list of the accumulation loop. -/
theorem accumItems_snd (l : List ProductItem) : (accumItems l).2 = l.map processItem := by
  induction l with
  | nil => rfl
  | cons it rest ih => simp [accumItems, ih]

/-- The subtotal of the accumulation loop is the sum of the line totals. -/
theorem accumItems_fst (l : List ProductItem) :
    (accumItems l).1 = (l.map fun it => it.item_price * it.quantity).sum := by
  induction l with
  | nil => rfl
  | cons it rest ih => simp [accumItems, processItem, ih]

/-- C1: in a catalogue order every stored line total is unit price times
quantity, the stored subtotal is the sum of the line totals, the tax
rate is 0 and the stored total is subtotal + round(subtotal * tax_rate);
the legacy single-item path satisfies the same invariant with subtotal =
item price, quantity = 1 and tax 0. -/
theorem c1_order_totals (s s2 : DBState) (wa phone iid iname : String)
    (od : OrderData) (price : Int) (now now2 : Time) :
    ((Database.create_order_from_catalogue s wa phone od now).1.items.map ProcessedItem.item_total
        = od.product_items.map fun it => it.item_price * it.quantity) ∧
    ((Database.create_order_from_catalogue s wa phone od now).1.subtotal
        = ((Database.create_order_from_catalogue s wa phone od now).1.items.map
            ProcessedItem.item_total).sum) ∧
    TAX_RATE = 0 ∧
    ((Database.create_order_from_catalogue s wa phone od now).1.tax_amount
        = round (((Database.create_order_from_catalogue s wa phone od now).1.subtotal : ℚ)
            * TAX_RATE)) ∧
    ((Database.create_order_from_catalogue s wa phone od now).1.total_amount
        = (Database.create_order_from_catalogue s wa phone od now).1.subtotal
          + (Database.create_order_from_catalogue s wa phone od now).1.tax_amount) ∧
    ((Database.create_order s2 wa phone iid iname (some price) now2).1.subtotal = price) ∧
    ((Database.create_order s2 wa phone iid iname (some price) now2).1.quantity = 1) ∧
    ((Database.create_order s2 wa phone iid iname (some price) now2).1.tax_amount = 0) ∧
    ((Database.create_order s2 wa phone iid iname (some price) now2).1.total_amount
        = (Database.create_order s2 wa phone iid iname (some price) now2).1.subtotal
          + (Database.create_order s2 wa phone iid iname (some price) now2).1.tax_amount) := by
  refine ⟨?_, ?_, rfl, ?_, ?_, ?_, ?_, ?_, ?_⟩
  · simp [Database.create_order_from_catalogue, accumItems_snd, processItem,
      List.map_map, Function.comp]
  · have hcomp : (ProcessedItem.item_total ∘ processItem)
        = fun it : ProductItem => it.item_price * it.quantity := by
      funext it
      simp [processItem]
    simp [Database.create_order_from_catalogue, accumItems_snd, accumItems_fst,
      List.map_map, hcomp]
  · simp [Database.create_order_from_catalogue, TAX_RATE, pyInt]
  · simp [Database.create_order_from_catalogue]
  · by_cases hp : price = 0 <;> simp [Database.create_order, pyOrZero, hp]
  · simp [Database.create_order]
  · simp [Database.create_order]
  · simp [Database.create_order]

/-- C2: whenever update_order_payment matched and returned a row, a
confirmed payment status yields order status placed, payment status
confirmed and a set confirmation timestamp; and in every returned row
the confirmation timestamp is set if and only if the payment status is
confirmed. -/
theorem c2_payment_confirmation (s : DBState) (oid : Nat) (m ps : String) (t : Time)
    (o2 : Order)
    (h : (Database.update_order_payment s oid m ps t).1 = some o2) :
    (ps = "confirmed" →
        o2.status = "placed" ∧ o2.payment_status = some "confirmed" ∧
        o2.payment_confirmed_at = some t) ∧
    (o2.payment_confirmed_at ≠ none ↔ o2.payment_status = some "confirmed") := by
  cases hf : s.orders.filter (fun o => o.id == oid) with
  | nil => simp [Database.update_order_payment, hf] at h
  | cons o0 tl =>
      simp [Database.update_order_payment, hf] at h
      subst h
      by_cases hc : ps = "confirmed"
      · subst hc
        simp [applyPaymentUpdate]
      · simp [applyPaymentUpdate, hc]

/-- Concrete order data used by examples: one line item, price 45000
minor units, quantity 2. -/
def odDemo : OrderData :=
  { product_items := [{ product_retailer_id := "SKU1", name := "Zinger Burger",
                        item_price := 45000, quantity := 2, currency := "PKR" }],
    order_id := none }

def itemIdDemo : String := "ITEM_ZINGER"

def itemNameDemo : String := "Zinger Burger"

def payBank : String := "bank_transfer"

def psConfirmed : String := "confirmed"

/-- State holding exactly the single legacy demo order (id 0). -/
def sDemo : DBState :=
  (Database.create_order DBState.empty waDemo waDemo itemIdDemo itemNameDemo (some 45000) 10).2

/-- The legacy demo order before payment. -/
def oDemo : Order :=
  (Database.create_order DBState.empty waDemo waDemo itemIdDemo itemNameDemo (some 45000) 10).1

/-- The demo order after a confirmed bank-transfer payment at time 50. -/
def oDemoPaid : Order := applyPaymentUpdate oDemo payBank psConfirmed 50

/-- Witness for c2_payment_confirmation on the stored demo order. -/
theorem c2_payment_confirmation_witness :
    (psConfirmed = "confirmed" →
        oDemoPaid.status = "placed" ∧ oDemoPaid.payment_status = some "confirmed" ∧
        oDemoPaid.payment_confirmed_at = some 50) ∧
    (oDemoPaid.payment_confirmed_at ≠ none ↔ oDemoPaid.payment_status = some "confirmed") :=
  c2_payment_confirmation sDemo 0 payBank psConfirmed 50 oDemoPaid (by decide)

/-- C10: when no stored order has the requested id, update_order_payment
returns the empty result and the cache is left untouched. -/
theorem c10_update_missing_order (s : DBState) (oid : Nat) (m ps : String) (t : Time)
    (h : ∀ o ∈ s.orders, o.id ≠ oid) :
    (Database.update_order_payment s oid m ps t).1 = none ∧
    (Database.update_order_payment s oid m ps t).2.cache = s.cache := by
  have hf : s.orders.filter (fun o => o.id == oid) = [] := by
    rw [List.filter_eq_nil_iff]
    intro o ho
    simpa using h o ho
  constructor <;> simp [Database.update_order_payment, hf]

/-- Witness for c10_update_missing_order: no order has id 7 in the empty
state. -/
theorem c10_update_missing_order_witness :
    (Database.update_order_payment DBState.empty 7 payBank psConfirmed 50).1 = none ∧
    (Database.update_order_payment DBState.empty 7 payBank psConfirmed 50).2.cache
      = DBState.empty.cache :=
  c10_update_missing_order DBState.empty 7 payBank psConfirmed 50 (by simp [DBState.empty])

/-- Keys of the order-history and pending-order cache namespaces never
coincide. -/
theorem history_ne_pending (wa : String) :
    ("order_history:" ++ wa : String) ≠ "pending_order:" ++ wa := by
  intro h
  have hd := congrArg String.data h
  rw [String.data_append, String.data_append] at hd
  simp at hd

/-- C7 counterexample: create_order_from_catalogue is a ledger write,
yet after it the pending-order cache key of the sender holds a freshly set
entry expiring at 100 + 1800 — the key was populated, not deleted. -/
theorem c7_counterexample :
    ((Database.create_order_from_catalogue DBState.empty waDemo waDemo odDemo 100).2.cache
        ("pending_order:" ++ waDemo)).map Prod.snd = some 1900 := by decide

/-- C7 amended: every ledger write performs the persistent write, and
then: both creation paths delete the order-history key of the sender but set
the pending-order key to the newly inserted row with ttl 1800 rather
than deleting it, while the payment update (when it matched a row)
deletes both keys. -/
theorem c7_cache_invalidation_amended (s s2 s3 : DBState) (wa phone iid iname : String)
    (od : OrderData) (price : Option Int) (now now2 t : Time) (oid : Nat) (m ps : String)
    (o2 : Order)
    (h : (Database.update_order_payment s3 oid m ps t).1 = some o2) :
    ((Database.create_order_from_catalogue s wa phone od now).2.orders
        = s.orders ++ [(Database.create_order_from_catalogue s wa phone od now).1] ∧
      (Database.create_order_from_catalogue s wa phone od now).2.cache
        ("order_history:" ++ wa) = none ∧
      (Database.create_order_from_catalogue s wa phone od now).2.cache
        ("pending_order:" ++ wa)
        = some (CVal.order (Database.create_order_from_catalogue s wa phone od now).1,
            now + 1800)) ∧
    ((Database.create_order s2 wa phone iid iname price now2).2.orders
        = s2.orders ++ [(Database.create_order s2 wa phone iid iname price now2).1] ∧
      (Database.create_order s2 wa phone iid iname price now2).2.cache
        ("order_history:" ++ wa) = none ∧
      (Database.create_order s2 wa phone iid iname price now2).2.cache
        ("pending_order:" ++ wa)
        = some (CVal.order (Database.create_order s2 wa phone iid iname price now2).1,
            now2 + 1800)) ∧
    ((Database.update_order_payment s3 oid m ps t).2.cache
        ("pending_order:" ++ o2.wa_id) = none ∧
      (Database.update_order_payment s3 oid m ps t).2.cache
        ("order_history:" ++ o2.wa_id) = none) := by
  refine ⟨⟨rfl, ?_, ?_⟩, ⟨rfl, ?_, ?_⟩, ?_⟩
  · simp [Database.create_order_from_catalogue, CacheStore.set, CacheStore.delete,
      history_ne_pending wa]
  · simp [Database.create_order_from_catalogue, CacheStore.set]
  · simp [Database.create_order, CacheStore.set, CacheStore.delete, history_ne_pending wa]
  · simp [Database.create_order, CacheStore.set]
  · cases hf : s3.orders.filter (fun o => o.id == oid) with
    | nil => simp [Database.update_order_payment, hf] at h
    | cons o0 tl =>
        simp [Database.update_order_payment, hf] at h
        subst h
        have hne : ("pending_order:" ++ o0.wa_id : String) ≠ "order_history:" ++ o0.wa_id :=
          (history_ne_pending o0.wa_id).symm
        refine ⟨?_, ?_⟩ <;>
          simp [Database.update_order_payment, hf, applyPaymentUpdate,
            CacheStore.delete, hne]

/-- Witness for c7_cache_invalidation_amended at the demo inputs. -/
theorem c7_cache_invalidation_amended_witness :
    ((Database.create_order_from_catalogue DBState.empty waDemo waDemo odDemo 100).2.orders
        = DBState.empty.orders
          ++ [(Database.create_order_from_catalogue DBState.empty waDemo waDemo odDemo 100).1] ∧
      (Database.create_order_from_catalogue DBState.empty waDemo waDemo odDemo 100).2.cache
        ("order_history:" ++ waDemo) = none ∧
      (Database.create_order_from_catalogue DBState.empty waDemo waDemo odDemo 100).2.cache
        ("pending_order:" ++ waDemo)
        = some (CVal.order
            (Database.create_order_from_catalogue DBState.empty waDemo waDemo odDemo 100).1,
            100 + 1800)) ∧
    ((Database.create_order DBState.empty waDemo waDemo itemIdDemo itemNameDemo
        (some 45000) 10).2.orders
        = DBState.empty.orders
          ++ [(Database.create_order DBState.empty waDemo waDemo itemIdDemo itemNameDemo
              (some 45000) 10).1] ∧
      (Database.create_order DBState.empty waDemo waDemo itemIdDemo itemNameDemo
        (some 45000) 10).2.cache ("order_history:" ++ waDemo) = none ∧
      (Database.create_order DBState.empty waDemo waDemo itemIdDemo itemNameDemo
        (some 45000) 10).2.cache ("pending_order:" ++ waDemo)
        = some (CVal.order
            (Database.create_order DBState.empty waDemo waDemo itemIdDemo itemNameDemo
              (some 45000) 10).1, 10 + 1800)) ∧
    ((Database.update_order_payment sDemo 0 payBank psConfirmed 50).2.cache
        ("pending_order:" ++ oDemoPaid.wa_id) = none ∧
      (Database.update_order_payment sDemo 0 payBank psConfirmed 50).2.cache
        ("order_history:" ++ oDemoPaid.wa_id) = none) :=
  c7_cache_invalidation_amended DBState.empty DBState.empty sDemo waDemo waDemo itemIdDemo
    itemNameDemo odDemo (some 45000) 100 10 50 0 payBank psConfirmed oDemoPaid (by decide)

/-! ### Rate limiter (class RateLimiter, src/main.py lines 515-559)

The in-memory table _rate_limits maps a sender to (request count, window
timestamp).  check_rate_limit truncates the current UTC time to the
whole minute via now.replace(second=0, microsecond=0); on a non-negative
wall clock in whole seconds that is 60 * (now / 60).  The hourly
_cleanup_old_entries sweep only discards entries whose stored window
already precedes the current one — entries check_rate_limit would reset
anyway — so the sweep is not modelled. -/

abbrev RLTable := String → Option (Nat × Nat)

/-- Rate-limit table with no entries. -/
def rlEmpty : RLTable := fun _ => none

/-- Window start: the current time truncated to the whole minute. -/
def window_start (t : Nat) : Nat := 60 * (t / 60)

/-- Window start as the specification words it: the current time
truncated to the configured window size W (RATE_LIMIT_WINDOW_SECONDS).
Stated from the spec text for comparison with window_start. -/
def specWindowStart (W t : Nat) : Nat := W * (t / W)

/-- RateLimiter.check_rate_limit (lines 521-546) with configured request
limit N: returns (allowed, remaining) and the updated table. -/
def RateLimiter.check_rate_limit (rl : RLTable) (N : Nat) (wa_id : String) (now : Nat) :
    (Bool × Int) × RLTable :=
  let w := window_start now
  match rl wa_id with
  | some (count, stored_window) =>
      if stored_window < w then
        ((true, (N : Int) - 1), fun k => if k = wa_id then some (1, w) else rl k)
      else if N ≤ count then
        ((false, 0), rl)
      else
        ((true, (N : Int) - count - 1),
          fun k => if k = wa_id then some (count + 1, w) else rl k)
  | none =>
      ((true, (N : Int) - 1), fun k => if k = wa_id then some (1, w) else rl k)

/-- Results of a sequence of check_rate_limit calls at the given times,
threading the table. -/
def RateLimiter.callResults (rl : RLTable) (N : Nat) (wa_id : String) :
    List Nat → List (Bool × Int)
  | [] => []
  | t :: ts =>
      let r := RateLimiter.check_rate_limit rl N wa_id t
      r.1 :: RateLimiter.callResults r.2 N wa_id ts

/-- Expected result of the k-th call (0-indexed) in a window entered
fresh: allowed with remaining N - k - 1 while k < N, afterwards denied
with remaining 0. -/
def expectedCall (N k : Nat) : Bool × Int :=
  if k < N then (true, (N : Int) - k - 1) else (false, 0)

/-- Calls within the stored window, starting from stored count c,
produce the expected results shifted by c. -/
theorem callResults_steady (N : Nat) (wa : String) (w : Nat) :
    ∀ (ts : List Nat) (rl : RLTable) (c : Nat),
      rl wa = some (c, w) → (∀ t ∈ ts, window_start t = w) →
      RateLimiter.callResults rl N wa ts
        = (List.range ts.length).map fun i => expectedCall N (c + i) := by
  intro ts
  induction ts with
  | nil =>
      intro rl c hc hts
      rfl
  | cons t ts ih =>
      intro rl c hc hts
      have hw : window_start t = w := hts t (by simp)
      have htail : ∀ x ∈ ts, window_start x = w := fun x hx => hts x (by simp [hx])
      by_cases hN : N ≤ c
      · have hcheck : RateLimiter.check_rate_limit rl N wa t = ((false, 0), rl) := by
          simp [RateLimiter.check_rate_limit, hc, hw, hN]
        have hrec := ih rl c hc htail
        have hhead : expectedCall N (c + 0) = (false, 0) := by
          simp [expectedCall]
          omega
        have htailmap : ((List.range ts.length).map fun i => expectedCall N (c + i))
            = (List.range ts.length).map fun i => expectedCall N (c + (i + 1)) := by
          refine List.map_congr_left fun a ha => ?_
          simp only [expectedCall]
          rw [if_neg (by omega), if_neg (by omega)]
        calc RateLimiter.callResults rl N wa (t :: ts)
            = (false, 0) :: RateLimiter.callResults rl N wa ts := by
              simp [RateLimiter.callResults, hcheck]
          _ = (false, 0) :: (List.range ts.length).map fun i => expectedCall N (c + i) := by
              rw [hrec]
          _ = (List.range (t :: ts).length).map fun i => expectedCall N (c + i) := by
              rw [List.length_cons, List.range_succ_eq_map, List.map_cons, List.map_map]
              rw [hhead, htailmap]
              rfl
      · have hcheck : RateLimiter.check_rate_limit rl N wa t
            = ((true, (N : Int) - c - 1),
                fun k => if k = wa then some (c + 1, w) else rl k) := by
          simp [RateLimiter.check_rate_limit, hc, hw, hN]
        have hrec := ih (fun k => if k = wa then some (c + 1, w) else rl k) (c + 1)
          (by simp) htail
        have hhead : expectedCall N (c + 0) = (true, (N : Int) - c - 1) := by
          simp [expectedCall]
          omega
        have htailmap : ((List.range ts.length).map fun i => expectedCall N (c + 1 + i))
            = (List.range ts.length).map fun i => expectedCall N (c + (i + 1)) := by
          refine List.map_congr_left fun a ha => ?_
          congr 1
          omega
        calc RateLimiter.callResults rl N wa (t :: ts)
            = (true, (N : Int) - c - 1)
                :: RateLimiter.callResults
                  (fun k => if k = wa then some (c + 1, w) else rl k) N wa ts := by
              simp [RateLimiter.callResults, hcheck]
          _ = (true, (N : Int) - c - 1)
                :: (List.range ts.length).map fun i => expectedCall N (c + 1 + i) := by
              rw [hrec]
          _ = (List.range (t :: ts).length).map fun i => expectedCall N (c + i) := by
              rw [List.length_cons, List.range_succ_eq_map, List.map_cons, List.map_map]
              rw [hhead, htailmap]
              rfl

/-- C4: with configured limit N ≥ 1 and a fresh table entry for the
sender (none, or a stored window preceding the current one), the first
call resets the counter to 1, and over any sequence of calls within one
window the k-th call (0-indexed) returns (allowed, N-k-1) while k < N
and (denied, 0) for every later k — exactly N calls are allowed. -/
theorem c4_rate_limit (rl : RLTable) (N : Nat) (wa : String) (w : Nat)
    (t0 : Nat) (ts : List Nat) (hN : 0 < N)
    (hfresh : rl wa = none ∨ ∃ c sw, rl wa = some (c, sw) ∧ sw < w)
    (ht0 : window_start t0 = w) (hts : ∀ t ∈ ts, window_start t = w) :
    (RateLimiter.check_rate_limit rl N wa t0).2 wa = some (1, w) ∧
    RateLimiter.callResults rl N wa (t0 :: ts)
      = (List.range (t0 :: ts).length).map (expectedCall N) := by
  have hcheck : RateLimiter.check_rate_limit rl N wa t0
      = ((true, (N : Int) - 1), fun k => if k = wa then some (1, w) else rl k) := by
    rcases hfresh with hnone | ⟨c, sw, hsome, hlt⟩
    · simp [RateLimiter.check_rate_limit, hnone, ht0]
    · simp only [RateLimiter.check_rate_limit, hsome, ht0]
      rw [if_pos hlt]
  constructor
  · rw [hcheck]
    simp
  · have hrec := callResults_steady N wa w ts
      (fun k => if k = wa then some (1, w) else rl k) 1 (by simp) hts
    have hhead : expectedCall N 0 = (true, (N : Int) - 1) := by
      simp [expectedCall, hN]
    have htailmap : ((List.range ts.length).map fun i => expectedCall N (1 + i))
        = (List.range ts.length).map fun i => expectedCall N (i + 1) := by
      refine List.map_congr_left fun a ha => ?_
      congr 1
      omega
    calc RateLimiter.callResults rl N wa (t0 :: ts)
        = (true, (N : Int) - 1)
            :: RateLimiter.callResults
              (fun k => if k = wa then some (1, w) else rl k) N wa ts := by
          simp [RateLimiter.callResults, hcheck]
      _ = (true, (N : Int) - 1)
            :: (List.range ts.length).map fun i => expectedCall N (1 + i) := by
          rw [hrec]
      _ = (List.range (t0 :: ts).length).map (expectedCall N) := by
          rw [List.length_cons, List.range_succ_eq_map, List.map_cons, List.map_map]
          rw [hhead, htailmap]
          rfl

/-- Witness for c4_rate_limit: limit 2, three calls in the minute
starting at 0: results (allowed,1), (allowed,0), (denied,0). -/
theorem c4_rate_limit_witness :
    (RateLimiter.check_rate_limit rlEmpty 2 waDemo 5).2 waDemo = some (1, 0) ∧
    RateLimiter.callResults rlEmpty 2 waDemo [5, 17, 59]
      = (List.range 3).map (expectedCall 2) :=
  c4_rate_limit rlEmpty 2 waDemo 0 5 [17, 59] (by decide) (Or.inl rfl) (by decide) (by decide)

/-- C8 counterexample: with configured window size W = 120 the times 130
and 190 truncate to the same multiple of W, yet the limiter puts them in
different windows: a second call at 190 after one at 130 is treated as a
fresh window (remaining resets to N - 1 = 29, not 28). -/
theorem c8_counterexample :
    specWindowStart 120 130 = specWindowStart 120 190 ∧
    window_start 130 ≠ window_start 190 ∧
    (RateLimiter.check_rate_limit
        (RateLimiter.check_rate_limit rlEmpty 30 waDemo 130).2 30 waDemo 190).1
      = (true, 29) := by decide

/-- C8 amended: the window boundary is the wall clock truncated to the
whole minute — 60 seconds regardless of the configured window size — so
two calls fall in the same window iff their times truncate to the same
multiple of 60: a later call resets the sender to a fresh window exactly
when the minutes differ, and otherwise counts against the stored window
(increment below the limit, denial at it). -/
theorem c8_window_amended (rl : RLTable) (N : Nat) (wa : String) (c : Nat)
    (t1 t2 : Nat) (hrl : rl wa = some (c, window_start t1)) (h12 : t1 ≤ t2) :
    (window_start t1 = window_start t2 ↔ specWindowStart 60 t1 = specWindowStart 60 t2) ∧
    (window_start t1 ≠ window_start t2 →
      RateLimiter.check_rate_limit rl N wa t2
        = ((true, (N : Int) - 1),
            fun k => if k = wa then some (1, window_start t2) else rl k)) ∧
    (window_start t1 = window_start t2 →
      (RateLimiter.check_rate_limit rl N wa t2).2 wa
        = if N ≤ c then some (c, window_start t1) else some (c + 1, window_start t1)) := by
  have hmono : window_start t1 ≤ window_start t2 :=
    Nat.mul_le_mul_left 60 (Nat.div_le_div_right h12)
  refine ⟨Iff.rfl, ?_, ?_⟩
  · intro hne
    have hlt : window_start t1 < window_start t2 := lt_of_le_of_ne hmono hne
    simp [RateLimiter.check_rate_limit, hrl, hlt]
  · intro heq
    have hnlt : ¬ window_start t1 < window_start t2 := by omega
    by_cases hN : N ≤ c
    · simp [RateLimiter.check_rate_limit, hrl, hnlt, hN, hrl]
    · simp [RateLimiter.check_rate_limit, hrl, hnlt, hN, heq]

/-- Stored rate window for the witness: count 3 in the minute of time
130. -/
def rlDemo : RLTable := fun k => if k = waDemo then some (3, window_start 130) else none

/-- Witness for c8_window_amended at count 3, times 130 and 190. -/
theorem c8_window_amended_witness :
    (window_start 130 = window_start 190
        ↔ specWindowStart 60 130 = specWindowStart 60 190) ∧
    (window_start 130 ≠ window_start 190 →
      RateLimiter.check_rate_limit rlDemo 30 waDemo 190
        = ((true, (30 : Int) - 1),
            fun k => if k = waDemo then some (1, window_start 190) else rlDemo k)) ∧
    (window_start 130 = window_start 190 →
      (RateLimiter.check_rate_limit rlDemo 30 waDemo 190).2 waDemo
        = if 30 ≤ 3 then some (3, window_start 130) else some (3 + 1, window_start 130)) :=
  c8_window_amended rlDemo 30 waDemo 3 130 190 (by simp [rlDemo]) (by decide)

/-! ### Webhook admission pipeline (post /webhook/whatsapp handler,
src/main.py lines 1356-1384)

After parsing, the handler runs: already_processed → return duplicate;
mark_processed; is_user_blocked → return blocked with no outbound
message; check_rate_limit → send the slow-down notice and return
rate_limited; get_or_create_user (profile upsert); then dispatch on the
message kind.  The three environment outcomes (dedup verdict, blocked
flag, rate verdict) are the booleans below; the trace records which
steps ran and in what order. -/

inductive AdmissionStep where
  | dedup_check
  | mark
  | blocked_check
  | rate_check
  | rate_notice
  | profile_upsert
  | dispatch
deriving DecidableEq, Repr

/-- The admission pipeline of the webhook handler: returned status
string and ordered trace of executed steps. -/
def webhook_admission (already_processed blocked rate_allowed : Bool) :
    String × List AdmissionStep :=
  if already_processed then ("duplicate", [AdmissionStep.dedup_check])
  else if blocked then
    ("blocked", [AdmissionStep.dedup_check, AdmissionStep.mark, AdmissionStep.blocked_check])
  else if !rate_allowed then
    ("rate_limited",
      [AdmissionStep.dedup_check, AdmissionStep.mark, AdmissionStep.blocked_check,
        AdmissionStep.rate_check, AdmissionStep.rate_notice])
  else
    ("ok",
      [AdmissionStep.dedup_check, AdmissionStep.mark, AdmissionStep.blocked_check,
        AdmissionStep.rate_check, AdmissionStep.profile_upsert, AdmissionStep.dispatch])

/-- C6: the admission checks run in strict order — dedup, blocked
sender, rate limit, profile upsert, dispatch — a duplicate returns with
nothing further run, a blocked sender is rejected with no outbound
step, a rate rejection sends only the slow-down notice, and a fully
fully cleared event runs the whole ordered pipeline. -/
theorem c6_admission_order (p b r : Bool) :
    (p = true → (webhook_admission p b r).1 = "duplicate" ∧
      AdmissionStep.blocked_check ∉ (webhook_admission p b r).2 ∧
      AdmissionStep.rate_check ∉ (webhook_admission p b r).2 ∧
      AdmissionStep.rate_notice ∉ (webhook_admission p b r).2 ∧
      AdmissionStep.profile_upsert ∉ (webhook_admission p b r).2 ∧
      AdmissionStep.dispatch ∉ (webhook_admission p b r).2) ∧
    (p = false → b = true → (webhook_admission p b r).1 = "blocked" ∧
      AdmissionStep.rate_check ∉ (webhook_admission p b r).2 ∧
      AdmissionStep.rate_notice ∉ (webhook_admission p b r).2 ∧
      AdmissionStep.profile_upsert ∉ (webhook_admission p b r).2 ∧
      AdmissionStep.dispatch ∉ (webhook_admission p b r).2) ∧
    (p = false → b = false → r = false → (webhook_admission p b r).1 = "rate_limited" ∧
      AdmissionStep.rate_notice ∈ (webhook_admission p b r).2 ∧
      AdmissionStep.profile_upsert ∉ (webhook_admission p b r).2 ∧
      AdmissionStep.dispatch ∉ (webhook_admission p b r).2) ∧
    (p = false → b = false → r = true → (webhook_admission p b r).1 = "ok" ∧
      (webhook_admission p b r).2
        = [AdmissionStep.dedup_check, AdmissionStep.mark, AdmissionStep.blocked_check,
            AdmissionStep.rate_check, AdmissionStep.profile_upsert,
            AdmissionStep.dispatch]) := by
  cases p <;> cases b <;> cases r <;> simp [webhook_admission]

/-- Witness for c6_admission_order: an already-processed event is
answered duplicate with no further check or handler run. -/
theorem c6_admission_order_witness :
    (webhook_admission true false false).1 = "duplicate" ∧
    AdmissionStep.blocked_check ∉ (webhook_admission true false false).2 ∧
    AdmissionStep.rate_check ∉ (webhook_admission true false false).2 ∧
    AdmissionStep.rate_notice ∉ (webhook_admission true false false).2 ∧
    AdmissionStep.profile_upsert ∉ (webhook_admission true false false).2 ∧
    AdmissionStep.dispatch ∉ (webhook_admission true false false).2 :=
  (c6_admission_order true false false).1 rfl

/-! ### Injectivity of decimal rendering -/

/-- Distinct decimal digits render to distinct digit characters. -/
theorem digitChar_inj :
    ∀ a < 10, ∀ b < 10, Nat.digitChar a = Nat.digitChar b → a = b := by decide

/-- Lists of decimal digits with equal digit-character images are
equal. -/
theorem map_digitChar_inj : ∀ (l1 l2 : List Nat), (∀ x ∈ l1, x < 10) → (∀ x ∈ l2, x < 10) →
    l1.map Nat.digitChar = l2.map Nat.digitChar → l1 = l2 := by
  intro l1
  induction l1 with
  | nil =>
      intro l2 _ _ h
      cases l2 with
      | nil => rfl
      | cons b bs => simp at h
  | cons a as ih =>
      intro l2 h1 h2 h
      cases l2 with
      | nil => simp at h
      | cons b bs =>
          simp only [List.map_cons, List.cons.injEq] at h
          have hab := digitChar_inj a (h1 a (by simp)) b (h2 b (by simp)) h.1
          have hrest := ih bs (fun x hx => h1 x (by simp [hx]))
            (fun x hx => h2 x (by simp [hx])) h.2
          rw [hab, hrest]

/-- A number rendering to the string 0 is zero. -/
theorem natRepr_eq_zero {n : Nat} (h : natRepr n = "0") : n = 0 := by
  by_contra hn
  rw [natRepr, if_neg hn] at h
  have h0 : ("0" : String) = List.asString ['0'] := rfl
  rw [h0] at h
  have hd : (Nat.digits 10 n).reverse.map Nat.digitChar = ['0'] :=
    congrArg String.data h
  cases hrev : (Nat.digits 10 n).reverse with
  | nil =>
      rw [hrev] at hd
      simp at hd
  | cons x xs =>
      rw [hrev] at hd
      simp only [List.map_cons, List.cons.injEq, List.map_eq_nil_iff] at hd
      have hxmem : x ∈ Nat.digits 10 n := List.mem_reverse.mp (by rw [hrev]; simp)
      have hx10 : x < 10 := Nat.digits_lt_base (by norm_num) hxmem
      have hx0 : x = 0 := by
        refine digitChar_inj x hx10 0 (by norm_num) ?_
        rw [hd.1]
        rfl
      have hdig : Nat.digits 10 n = [0] := by
        have hrr := congrArg List.reverse hrev
        simpa [hx0, hd.2] using hrr
      have hofd := Nat.ofDigits_digits 10 n
      rw [hdig] at hofd
      simp [Nat.ofDigits] at hofd
      exact hn hofd.symm

/-- natRepr is injective: distinct numbers render to distinct decimal
strings. -/
theorem natRepr_injective : Function.Injective natRepr := by
  intro m n h
  by_cases hm : m = 0
  · subst hm
    exact (natRepr_eq_zero h.symm).symm
  · by_cases hn : n = 0
    · subst hn
      exact natRepr_eq_zero h
    · rw [natRepr, if_neg hm, natRepr, if_neg hn] at h
      have hd : (Nat.digits 10 m).reverse.map Nat.digitChar
          = (Nat.digits 10 n).reverse.map Nat.digitChar := congrArg String.data h
      have hmem1 : ∀ x ∈ (Nat.digits 10 m).reverse, x < 10 := fun x hx =>
        Nat.digits_lt_base (by norm_num) (List.mem_reverse.mp hx)
      have hmem2 : ∀ x ∈ (Nat.digits 10 n).reverse, x < 10 := fun x hx =>
        Nat.digits_lt_base (by norm_num) (List.mem_reverse.mp hx)
      have hrev := map_digitChar_inj _ _ hmem1 hmem2 hd
      have hdig : Nat.digits 10 m = Nat.digits 10 n := by
        have hrr := congrArg List.reverse hrev
        simpa using hrr
      exact Nat.digits.injective 10 hdig

/-! ### Message extraction (extract_message, src/main.py lines 1169-1232)

Only the branch relevant to claim C9 is elaborated in full: when the
webhook value carries no messages but an orders array, the handler
synthesizes a message id embedding the current wall-clock timestamp,
order_ + catalog_id + _ + timestamp.  For a value with messages the id
is taken from the message itself; the per-kind elaboration of
interactive payloads plays no role in any claim and is not modelled. -/

structure InboundMessage where
  msg_from : String
  id : String
  msg_type : String
deriving DecidableEq, Repr

/-- One element of value["orders"]. -/
structure OrderEntry where
  wa_id : String
  catalog_id : String
deriving DecidableEq, Repr

/-- The value object of a webhook change. -/
structure WebhookValue where
  messages : List InboundMessage
  orders : List OrderEntry
deriving DecidableEq, Repr

/-- The normalized inbound event returned by extract_message. -/
structure ExtractedMessage where
  kind : String
  sender : String
  id : String
deriving DecidableEq, Repr

/-- extract_message: first message if any; otherwise the first orders
entry with a synthesized, time-stamped id; otherwise nothing. -/
def extract_message (v : WebhookValue) (now : Nat) : Option ExtractedMessage :=
  match v.messages with
  | m :: _ => some { kind := m.msg_type, sender := m.msg_from, id := m.id }
  | [] =>
      match v.orders with
      | [] => none
      | o :: _ =>
          some { kind := "order", sender := o.wa_id,
                 id := "order_" ++ o.catalog_id ++ "_" ++ natRepr now }

/-- Appending to the same prefix is cancellative on strings. -/
theorem string_append_left_cancel {s a b : String} (h : s ++ a = s ++ b) : a = b := by
  have hd := congrArg String.data h
  rw [String.data_append, String.data_append] at hd
  exact String.ext (List.append_cancel_left hd)

/-- C9: a webhook value with an orders array and no messages gets a
synthesized id embedding the wall clock, so two byte-identical
deliveries at different times receive different ids, and the dedup
check never rejects the redelivery as a duplicate: after the first id
is marked processed, already_processed is still false for the second
id, at any query time and whether or not the durable insert
succeeded. -/
theorem c9_nondeterministic_id (v : WebhookValue) (o : OrderEntry) (os : List OrderEntry)
    (t1 t2 : Nat) (e1 e2 : ExtractedMessage) (wa mt : String) (tm tq : Time) (ok : Bool)
    (hmsg : v.messages = []) (hord : v.orders = o :: os) (hne : t1 ≠ t2)
    (he1 : extract_message v t1 = some e1) (he2 : extract_message v t2 = some e2) :
    e1.id ≠ e2.id ∧
    (Database.already_processed
      (Database.mark_processed DBState.empty e1.id wa mt tm ok) e2.id tq).1 = false := by
  obtain ⟨msgs, ords⟩ := v
  simp only at hmsg hord
  subst hmsg
  subst hord
  simp only [extract_message, Option.some.injEq] at he1 he2
  subst he1
  subst he2
  have hne_ids : ("order_" ++ o.catalog_id ++ "_" ++ natRepr t1 : String)
      ≠ "order_" ++ o.catalog_id ++ "_" ++ natRepr t2 := by
    intro hid
    exact hne (natRepr_injective (string_append_left_cancel hid))
  refine ⟨hne_ids, ?_⟩
  have hkey : ("processed:" ++ ("order_" ++ o.catalog_id ++ "_" ++ natRepr t2) : String)
      ≠ "processed:" ++ ("order_" ++ o.catalog_id ++ "_" ++ natRepr t1) := by
    intro hk
    exact hne_ids (string_append_left_cancel hk).symm
  cases ok <;>
    simp [Database.already_processed, Database.mark_processed, CacheStore.get,
      CacheStore.set, CacheStore.empty, DBState.empty, hkey, Ne.symm hne_ids]

/-- Demo webhook value: an orders payload with no messages. -/
def vDemo : WebhookValue :=
  { messages := [], orders := [{ wa_id := waDemo, catalog_id := "CAT42" }] }

/-- The event extracted from vDemo at time 100. -/
def eDemo1 : ExtractedMessage :=
  { kind := "order", sender := waDemo, id := "order_" ++ "CAT42" ++ "_" ++ natRepr 100 }

/-- The event extracted from vDemo at time 101. -/
def eDemo2 : ExtractedMessage :=
  { kind := "order", sender := waDemo, id := "order_" ++ "CAT42" ++ "_" ++ natRepr 101 }

/-- Witness for c9_nondeterministic_id: the same orders payload at times
100 and 101. -/
theorem c9_nondeterministic_id_witness :
    eDemo1.id ≠ eDemo2.id ∧
    (Database.already_processed
      (Database.mark_processed DBState.empty eDemo1.id waDemo mtypeDemo 0 true)
      eDemo2.id 1).1 = false :=
  c9_nondeterministic_id vDemo { wa_id := waDemo, catalog_id := "CAT42" } [] 100 101
    eDemo1 eDemo2 waDemo mtypeDemo 0 1 true rfl rfl (by decide) rfl rfl

end CPC
